import Mathlib

/-!
Verification of the SQLiteCpp Column layer (src/include/SQLiteCpp/Column.h).

The file embeds, as Lean definitions, the data model and operations of the
Column class and the `Statement::getColumns` template of Column.h.  Parts of
the repository that Column.h only declares or calls into (the raw cell
accessors of the native engine, the getter bodies of Column.cpp, the
`checkRow`/`checkIndex` guards and the reference-counted `Statement::Ptr`
of Statement.h) are modelled from the specification, each marked
`Modelled from the spec:` in its doc comment.  Machine integers are Int
with explicit wrapping where the source performs a cast.
-/

namespace SQLiteCpp

/-- Signed two's-complement wrap of an integer to `w` bits, the value a
C++ `static_cast` to a signed `w`-bit type produces. -/
def wrapS (w : Nat) (v : Int) : Int :=
  (v + 2 ^ (w - 1)) % 2 ^ w - 2 ^ (w - 1)

/-- Unsigned wrap of an integer to `w` bits, the value a C++ conversion to
an unsigned `w`-bit type produces (result in `[0, 2^w)`). -/
def wrapU (w : Nat) (v : Int) : Int :=
  v % 2 ^ w

/-- Modelled from the spec: the dynamic type tag of a cell lives in the
closed set of five storage classes (spec section 3, "Typed Value Domain").
Payloads: a 64-bit signed integer, a floating value (modelled as a
rational), and raw byte sequences for text and blob. -/
inductive Cell where
  | integer (v : Int)
  | float (v : Rat)
  | text (bytes : List Nat)
  | blob (bytes : List Nat)
  | null
deriving DecidableEq

/-- Modelled from the spec: the Statement Handle of spec section 3 as seen
by a Column: the column count of the compiled statement, the "has current
row" flag, and the cells of the current row held by the native engine.
The fields keep the source names `mColumnCount` and `mbHasRow` declared in
Statement.h (not under src/). -/
structure Statement where
  mColumnCount : Nat
  mbHasRow : Bool
  cells : List Cell
deriving DecidableEq

/-- Column of Column.h: a shared reference to the statement and a column
index (field names `mStmtPtr`, `mIndex` from the source, lines 259-262).
The C++ index is a signed int, so the model keeps `Int`. -/
structure Column where
  mStmtPtr : Statement
  mIndex : Int
deriving DecidableEq

/-- Modelled from the spec: the raw cell read keyed by column index
(spec section 4.1).  Out-of-contract indices are not trapped by the native
engine, which "returns a default/zero rather than trapping", modelled as a
Null cell. -/
def Column.cell (c : Column) : Cell :=
  if h : 0 ≤ c.mIndex ∧ c.mIndex.toNat < c.mStmtPtr.cells.length then
    c.mStmtPtr.cells.get ⟨c.mIndex.toNat, h.2⟩
  else
    Cell.null

/-- SQLITE_INTEGER, declared `extern const int INTEGER` in Column.h line 23;
value modelled from the native engine's constant. -/
def INTEGER : Int := 1

/-- SQLITE_FLOAT, declared `extern const int FLOAT` in Column.h line 24. -/
def FLOAT : Int := 2

/-- SQLITE_TEXT, declared `extern const int TEXT` in Column.h line 25. -/
def TEXT : Int := 3

/-- SQLITE_BLOB, declared `extern const int BLOB` in Column.h line 26. -/
def BLOB : Int := 4

/-- SQLITE_NULL, declared `extern const int Null` in Column.h line 27. -/
def Null : Int := 5

/-- Modelled from the spec: `getType()` (declared Column.h line 123, body in
Column.cpp, not under src/) queries the dynamic tag of the cell on each
call and returns one of the five storage-class constants. -/
def Column.getType (c : Column) : Int :=
  match c.cell with
  | Cell.integer _ => INTEGER
  | Cell.float _ => FLOAT
  | Cell.text _ => TEXT
  | Cell.blob _ => BLOB
  | Cell.null => Null

/-- Modelled from the spec: the signed 64-bit integer projection of a cell.
Per spec section 3, conversion falls back to the type's zero when the
underlying cell is not of that type. -/
def Cell.toInt64 : Cell → Int
  | Cell.integer v => wrapS 64 v
  | _ => 0

/-- Modelled from the spec: the floating projection of a cell, zero when
the cell is not a Float (spec section 3). -/
def Cell.toDouble : Cell → Rat
  | Cell.float v => v
  | _ => 0

/-- Decimal byte string of an integer, the native engine's text rendering
of an integer cell (each element is one character's byte). -/
def decimalBytes (v : Int) : List Nat :=
  (toString v).toList.map Char.toNat

/-- Modelled from the spec: text rendering of a floating cell, used only
for the byte-representation of Float cells (spec section 4.2 getBytes:
"size in bytes of the string representation of the numerical value"). -/
def ratBytes (q : Rat) : List Nat :=
  (toString q).toList.map Char.toNat

/-- Modelled from the spec: the byte sequence of the native text/blob
representation of a cell: the stored bytes for Text and Blob, the string
representation for a numeral, empty for Null (spec sections 3 and 4.2). -/
def Cell.bytesRep : Cell → List Nat
  | Cell.text b => b
  | Cell.blob b => b
  | Cell.integer v => decimalBytes (wrapS 64 v)
  | Cell.float q => ratBytes q
  | Cell.null => []

/-- Modelled from the spec: `getInt()` (Column.h line 87, body in
Column.cpp) returns the 32-bit truncation of the cell's integer value. -/
def Column.getInt (c : Column) : Int :=
  wrapS 32 c.cell.toInt64

/-- Modelled from the spec: `getUInt()` (Column.h line 89) returns the
32-bit unsigned truncation of the cell's integer value. -/
def Column.getUInt (c : Column) : Int :=
  wrapU 32 c.cell.toInt64

/-- Modelled from the spec: `getInt64()` (Column.h line 91) returns the
cell's 64-bit integer value. -/
def Column.getInt64 (c : Column) : Int :=
  c.cell.toInt64

/-- Modelled from the spec: `getDouble()` (Column.h line 93) returns the
cell's floating value. -/
def Column.getDouble (c : Column) : Rat :=
  c.cell.toDouble

/-- Modelled from the spec: `getText(apDefaultValue)` (Column.h line 100)
returns the bytes behind the zero-terminated text pointer of the cell, or
`apDefaultValue` when the cell is Null (the native text pointer is NULL
there).  The C++ default argument is the empty string, passed explicitly
at every call site of the model. -/
def Column.getText (c : Column) (apDefaultValue : List Nat) : List Nat :=
  match c.cell with
  | Cell.null => apDefaultValue
  | cl => cl.bytesRep

/-- Modelled from the spec: `getBlob()` (Column.h line 107) returns the raw
bytes of the cell's native representation. -/
def Column.getBlob (c : Column) : List Nat :=
  c.cell.bytesRep

/-- Modelled from the spec: `getBytes()` (Column.h line 160, body in
Column.cpp) returns the byte length of the text/blob representation,
0 for a Null cell. -/
def Column.getBytes (c : Column) : Nat :=
  c.cell.bytesRep.length

/-- Modelled from the spec: `getString()` (Column.h line 113) builds an
owned copy sized by `getBytes()`, keeping embedded zero bytes. -/
def Column.getString (c : Column) : List Nat :=
  c.cell.bytesRep

/-- Reading a `const char*` under ordinary C-string length semantics: the
bytes up to (excluding) the first zero byte. -/
def cString (bs : List Nat) : List Nat :=
  bs.takeWhile (fun b => b ≠ 0)

/-- `isInteger()`, Column.h lines 126-129: `SQLite::INTEGER == getType()`. -/
def Column.isInteger (c : Column) : Bool :=
  INTEGER == c.getType

/-- `isFloat()`, Column.h lines 131-134: `SQLite::FLOAT == getType()`. -/
def Column.isFloat (c : Column) : Bool :=
  FLOAT == c.getType

/-- `isText()`, Column.h lines 136-139: `SQLite::TEXT == getType()`. -/
def Column.isText (c : Column) : Bool :=
  TEXT == c.getType

/-- `isBlob()`, Column.h lines 141-144: `SQLite::BLOB == getType()`. -/
def Column.isBlob (c : Column) : Bool :=
  BLOB == c.getType

/-- `isNull()`, Column.h lines 146-149: `SQLite::Null == getType()`. -/
def Column.isNull (c : Column) : Bool :=
  Null == c.getType

/-- `size()`, Column.h lines 163-166: returns `getBytes()`. -/
def Column.size (c : Column) : Nat :=
  c.getBytes

/-- Cast operator to char, Column.h lines 169-172:
`static_cast<char>(getInt())`. -/
def Column.operatorChar (c : Column) : Int :=
  wrapS 8 c.getInt

/-- Cast operator to unsigned char, Column.h lines 174-177:
`static_cast<unsigned char>(getInt())`. -/
def Column.operatorUChar (c : Column) : Int :=
  wrapU 8 c.getInt

/-- Cast operator to short, Column.h lines 179-182:
`static_cast<short>(getInt())`. -/
def Column.operatorShort (c : Column) : Int :=
  wrapS 16 c.getInt

/-- Cast operator to unsigned short, Column.h lines 184-187:
`static_cast<unsigned short>(getInt())`. -/
def Column.operatorUShort (c : Column) : Int :=
  wrapU 16 c.getInt

/-- Cast operator to int, Column.h lines 190-193: `return getInt();`. -/
def Column.operatorInt (c : Column) : Int :=
  c.getInt

/-- Cast operator to unsigned int, Column.h lines 195-198:
`return getUInt();`. -/
def Column.operatorUInt (c : Column) : Int :=
  c.getUInt

/-- Platform data model deciding the preprocessor condition
`LONG_MAX == INT_MAX` of Column.h line 199. -/
structure Platform where
  intMax : Nat
  longMax : Nat
deriving DecidableEq

/-- ILP32/LLP64 platform: `long` is 32 bits, so `LONG_MAX == INT_MAX`. -/
def ilp32 : Platform :=
  { intMax := 2 ^ 31 - 1, longMax := 2 ^ 31 - 1 }

/-- LP64 platform: `long` is 64 bits, so `LONG_MAX > INT_MAX`. -/
def lp64 : Platform :=
  { intMax := 2 ^ 31 - 1, longMax := 2 ^ 63 - 1 }

/-- Cast operator to long, Column.h lines 199-216: under
`#if (LONG_MAX == INT_MAX)` it returns `getInt()`, otherwise `getInt64()`.
The branch is taken on the platform constants alone, at build time. -/
def Column.operatorLong (pf : Platform) (c : Column) : Int :=
  if pf.longMax = pf.intMax then c.getInt else c.getInt64

/-- Cast operator to long long, Column.h lines 219-222:
`return getInt64();`. -/
def Column.operatorInt64 (c : Column) : Int :=
  c.getInt64

/-- Cast operator to double, Column.h lines 224-227:
`return getDouble();`. -/
def Column.operatorDouble (c : Column) : Rat :=
  c.getDouble

/-- Cast operator to `const char*`, Column.h lines 233-236:
`return getText();` (with the declaration's default argument, the empty
string). -/
def Column.operatorText (c : Column) : List Nat :=
  c.getText []

/-- Cast operator to `const void*`, Column.h lines 242-245:
`return getBlob();`. -/
def Column.operatorBlob (c : Column) : List Nat :=
  c.getBlob

/-- Cast operator to `std::string`, Column.h lines 254-257:
`return getString();`. -/
def Column.operatorString (c : Column) : List Nat :=
  c.getString

/-- Modelled from the spec: the contract-violation errors of spec section 7,
raised by the `checkRow`/`checkIndex` guards declared in Statement.h (not
under src/). -/
inductive ContractError where
  | noRow
  | columnOutOfRange
deriving DecidableEq

/-- Modelled from the spec: `Statement::checkRow()` reports a contract
violation when no row is current (spec section 7). -/
def Statement.checkRow (s : Statement) : Except ContractError Unit :=
  if s.mbHasRow then Except.ok () else Except.error ContractError.noRow

/-- Modelled from the spec: `Statement::checkIndex(aIndex)` reports a
contract violation unless `0 <= aIndex < column_count`, the validity range
of spec section 3 ("index is valid only for 0 <= index < column_count"). -/
def Statement.checkIndex (s : Statement) (aIndex : Int) : Except ContractError Unit :=
  if aIndex < 0 ∨ (s.mColumnCount : Int) ≤ aIndex then
    Except.error ContractError.columnOutOfRange
  else
    Except.ok ()

/-- `Statement::getColumns<T, N>()`, Column.h lines 279-285: runs
`checkRow()` then `checkIndex(N - 1)`, then builds the aggregate from the
Columns at indices `0 .. N-1`, `T{Column(mStmtPtr, Is)...}` (lines 288-292,
with `make_integer_sequence<int, N>` supplying the ascending indices).
The aggregate value is modelled as the ordered list of its Column fields. -/
def Statement.getColumns (s : Statement) (N : Nat) : Except ContractError (List Column) := do
  s.checkRow
  s.checkIndex ((N : Int) - 1)
  pure ((List.range N).map (fun i => Column.mk s (i : Int)))

/-- Modelled from the spec: the observable state of the reference-counted
`Statement::Ptr` (Statement.h, not under src/): the number of live owning
references and the number of times the native prepared statement has been
finalized. -/
structure PtrState where
  count : Nat
  finalizedCount : Nat
deriving DecidableEq

/-- Operations on a `Statement::Ptr`: copying a holder (Column copy
construction) and dropping a holder (destruction). -/
inductive PtrOp where
  | copy
  | drop
deriving DecidableEq

/-- Modelled from the spec: one step of the reference-counted lifetime.
A copy increments the reference count; a drop decrements it and, when the
last owning reference is dropped, finalizes the native resource
(spec sections 2 and 9: "finalizes the native resource exactly once, when
the last owning reference is dropped"). -/
def ptrStep (s : PtrState) : PtrOp → PtrState
  | PtrOp.copy => { s with count := s.count + 1 }
  | PtrOp.drop =>
      if s.count = 1 then
        { count := 0, finalizedCount := s.finalizedCount + 1 }
      else
        { s with count := s.count - 1 }

/-- Run a sequence of copy/drop operations from a state. -/
def ptrRun (s : PtrState) (ops : List PtrOp) : PtrState :=
  ops.foldl ptrStep s

/-- A well-formed trace only copies or drops a reference that exists:
every operation happens while at least one owning reference is live. -/
def ValidTrace (s : PtrState) : List PtrOp → Prop
  | [] => True
  | op :: rest => 0 < s.count ∧ ValidTrace (ptrStep s op) rest

/-- The lifetime invariant of the shared statement resource: either the
native resource was never finalized and at least one owning reference is
live, or it was finalized exactly once and no reference remains. -/
def PtrInv (s : PtrState) : Prop :=
  (s.finalizedCount = 0 ∧ 1 ≤ s.count) ∨ (s.finalizedCount = 1 ∧ s.count = 0)

/-- Concrete statement fixture: the scenario row of spec section 8,
three columns holding `(Integer 42, Text "hi\x00bye", Null)`. -/
def st3 : Statement :=
  { mColumnCount := 3
    mbHasRow := true
    cells := [Cell.integer 42, Cell.text [104, 105, 0, 98, 121, 101], Cell.null] }

/-- Column 0 of the fixture row: the Integer 42 cell. -/
def col0 : Column := Column.mk st3 0

/-- Column 1 of the fixture row: the 6-byte Text cell with an embedded
zero byte. -/
def col1 : Column := Column.mk st3 1

/-- Column 2 of the fixture row: the Null cell. -/
def col2 : Column := Column.mk st3 2

end SQLiteCpp

namespace SQLiteCpp

section Lemmas

/-- Helper: the signed wrap agrees with the argument modulo `2 ^ w`. -/
theorem wrapS_emod (w : Nat) (v : Int) : wrapS w v % 2 ^ w = v % 2 ^ w := by
  unfold wrapS
  conv_lhs => rw [Int.sub_emod, Int.emod_emod_of_dvd _ dvd_rfl, ← Int.sub_emod]
  rw [add_sub_cancel_right]

/-- Helper: the signed wrap to `w + 1` bits lands in `[-2 ^ w, 2 ^ w)`. -/
theorem wrapS_range (w : Nat) (v : Int) :
    -(2 ^ w) ≤ wrapS (w + 1) v ∧ wrapS (w + 1) v < 2 ^ w := by
  unfold wrapS
  have hpos : (0 : Int) < 2 ^ (w + 1) := by positivity
  have h1 := Int.emod_nonneg (v + 2 ^ (w + 1 - 1)) (ne_of_gt hpos)
  have h2 := Int.emod_lt_of_pos (v + 2 ^ (w + 1 - 1)) hpos
  have hw : (2 : Int) ^ (w + 1) = 2 ^ w + 2 ^ w := by ring
  simp only [Nat.add_sub_cancel] at h1 h2 ⊢
  omega

/-- Helper: a non-integer cell has integer projection zero. -/
theorem Cell.toInt64_of_ne_integer (cl : Cell) (h : ∀ v, cl ≠ Cell.integer v) :
    cl.toInt64 = 0 := by
  cases cl with
  | integer v => exact absurd rfl (h v)
  | float v => rfl
  | text b => rfl
  | blob b => rfl
  | null => rfl

/-- Helper: the invariant `PtrInv` is preserved along any valid trace. -/
theorem ptrRun_inv (ops : List PtrOp) :
    ∀ s : PtrState, ValidTrace s ops → PtrInv s → PtrInv (ptrRun s ops) := by
  induction ops with
  | nil => intro s _ h; exact h
  | cons op rest ih =>
      intro s hv hinv
      obtain ⟨hpos, hrest⟩ := hv
      have hstep : PtrInv (ptrStep s op) := by
        cases op with
        | copy =>
            rcases hinv with ⟨hf, hc⟩ | ⟨hf, hc⟩
            · exact Or.inl ⟨hf, by simp only [ptrStep]; omega⟩
            · omega
        | drop =>
            rcases hinv with ⟨hf, hc⟩ | ⟨hf, hc⟩
            · by_cases h1 : s.count = 1
              · exact Or.inr (by simp [ptrStep, h1, hf])
              · exact Or.inl ⟨by simp [ptrStep, h1, hf], by simp [ptrStep, h1]; omega⟩
            · omega
      exact ih (ptrStep s op) hrest hstep

end Lemmas

section Claims

/-- Helper: a list with an element failing the predicate has a strictly
shorter `takeWhile` prefix. -/
theorem length_takeWhile_lt_of_zero_mem (b : List Nat) (hz : 0 ∈ b) :
    (b.takeWhile (fun x => x ≠ 0)).length < b.length := by
  induction b with
  | nil => cases hz
  | cons a t ih =>
      by_cases ha : a = 0
      · subst ha
        rw [List.takeWhile_cons, if_neg (by simp)]
        simp
      · have hzt : 0 ∈ t := by
          cases hz with
          | head => exact absurd rfl ha
          | tail _ h => exact h
        rw [List.takeWhile_cons, if_pos (by simpa using ha)]
        simpa using ih hzt

/-- C1: `Statement::getColumns<T, N>` checks its preconditions before any
Column is constructed: with a current row and `N` exceeding the statement's
column count, the call yields the out-of-range contract-violation error and
no Column value (hence no native cell access) is ever produced. -/
theorem C1_getColumns_raises_before_any_column (s : Statement) (N : Nat)
    (hrow : s.mbHasRow = true) (hN : s.mColumnCount < N) :
    s.getColumns N = Except.error ContractError.columnOutOfRange := by
  have hle : ((N : Int) - 1 < 0 ∨ (s.mColumnCount : Int) ≤ (N : Int) - 1) := by
    right; omega
  unfold Statement.getColumns Statement.checkRow Statement.checkIndex
  rw [hrow, if_pos rfl, if_pos hle]
  rfl

/-- Witness for C1: the three-column fixture row with `N = 4`. -/
theorem C1_witness :
    st3.mbHasRow = true ∧ st3.mColumnCount < 4 ∧
    st3.getColumns 4 = Except.error ContractError.columnOutOfRange :=
  ⟨rfl, by decide, C1_getColumns_raises_before_any_column st3 4 rfl (by decide)⟩

/-- C2 counterexample: with a current row and `N = 0`, the stated
preconditions hold (a row is current and `N` does not exceed the column
count), yet `getColumns` raises the out-of-range contract violation
because it checks index `N - 1 = -1`; it does not construct the empty
aggregate. -/
theorem C2_counterexample :
    st3.mbHasRow = true ∧ 0 ≤ st3.mColumnCount ∧
    st3.getColumns 0 = Except.error ContractError.columnOutOfRange ∧
    st3.getColumns 0 ≠ Except.ok ((List.range 0).map (fun i => Column.mk st3 (i : Int))) :=
  ⟨rfl, by decide, rfl, fun h => Except.noConfusion h⟩

/-- C2 (amended with `1 ≤ N`): for every count `N ≥ 1` with a current row
and `N` at most the column count, `getColumns` succeeds and the aggregate
is built from the Columns at indices `0 .. N-1` in ascending order, each
field equal to the Column constructed directly at the same index on the
same statement. -/
theorem C2_getColumns_aggregate (s : Statement) (N : Nat)
    (hrow : s.mbHasRow = true) (h1 : 1 ≤ N) (hN : N ≤ s.mColumnCount) :
    s.getColumns N =
      Except.ok ((List.range N).map (fun i => Column.mk s (i : Int))) := by
  have hidx : ¬((N : Int) - 1 < 0 ∨ (s.mColumnCount : Int) ≤ (N : Int) - 1) := by
    push_neg
    constructor <;> omega
  unfold Statement.getColumns Statement.checkRow Statement.checkIndex
  rw [hrow, if_pos rfl, if_neg hidx]
  rfl

/-- Witness for C2 (amended): the fixture row with `N = 3`. -/
theorem C2_witness :
    st3.mbHasRow = true ∧ 1 ≤ 3 ∧ 3 ≤ st3.mColumnCount ∧
    st3.getColumns 3 =
      Except.ok ((List.range 3).map (fun i => Column.mk st3 (i : Int))) :=
  ⟨rfl, by decide, by decide,
    C2_getColumns_aggregate st3 3 rfl (by decide) (by decide)⟩

/-- C3: every implicit conversion operator of Column agrees with its named
getter with no extra logic: int, unsigned int, long long, double, text
pointer (with the empty default), blob pointer and owned string. -/
theorem C3_operators_agree_with_getters (c : Column) :
    c.operatorInt = c.getInt ∧
    c.operatorUInt = c.getUInt ∧
    c.operatorInt64 = c.getInt64 ∧
    c.operatorDouble = c.getDouble ∧
    c.operatorText = c.getText [] ∧
    c.operatorBlob = c.getBlob ∧
    c.operatorString = c.getString :=
  ⟨rfl, rfl, rfl, rfl, rfl, rfl, rfl⟩

/-- C4: `getBytes()` is 0 on a Null cell; on a non-null text or blob cell,
`getString()` is an owned copy of all the bytes whose length equals
`getBytes()` (embedded zero bytes included), while the zero-terminated
pointer of `getText()` read under C-string semantics stops at the first
zero byte, hence is strictly shorter when an embedded zero is present. -/
theorem C4_bytes_string_and_truncation (cN c : Column) (b : List Nat)
    (hN : cN.cell = Cell.null)
    (hb : c.cell = Cell.text b ∨ c.cell = Cell.blob b)
    (hz : 0 ∈ b) :
    cN.getBytes = 0 ∧
    c.getString = b ∧
    c.getString.length = c.getBytes ∧
    cString (c.getText []) = b.takeWhile (fun x => x ≠ 0) ∧
    (cString (c.getText [])).length < c.getBytes := by
  have hbytes : cN.getBytes = 0 := by
    unfold Column.getBytes
    rw [hN]
    rfl
  cases hb with
  | inl ht =>
      refine ⟨hbytes, ?_, ?_, ?_, ?_⟩
      · unfold Column.getString; rw [ht]; rfl
      · unfold Column.getString Column.getBytes; rw [ht]
      · unfold cString Column.getText; rw [ht]; rfl
      · unfold cString Column.getText Column.getBytes; rw [ht]
        exact length_takeWhile_lt_of_zero_mem b hz
  | inr hbl =>
      refine ⟨hbytes, ?_, ?_, ?_, ?_⟩
      · unfold Column.getString; rw [hbl]; rfl
      · unfold Column.getString Column.getBytes; rw [hbl]
      · unfold cString Column.getText; rw [hbl]; rfl
      · unfold cString Column.getText Column.getBytes; rw [hbl]
        exact length_takeWhile_lt_of_zero_mem b hz

/-- Witness for C4: the Null cell (column 2) and the 6-byte text cell
with an embedded zero (column 1) of the fixture row. -/
theorem C4_witness :
    col2.cell = Cell.null ∧
    (col1.cell = Cell.text [104, 105, 0, 98, 121, 101] ∨
      col1.cell = Cell.blob [104, 105, 0, 98, 121, 101]) ∧
    0 ∈ [104, 105, 0, 98, 121, 101] ∧
    (col2.getBytes = 0 ∧
     col1.getString = [104, 105, 0, 98, 121, 101] ∧
     col1.getString.length = col1.getBytes ∧
     cString (col1.getText []) =
       [104, 105, 0, 98, 121, 101].takeWhile (fun x => x ≠ 0) ∧
     (cString (col1.getText [])).length < col1.getBytes) :=
  ⟨rfl, Or.inl rfl, by decide,
    C4_bytes_string_and_truncation col2 col1 [104, 105, 0, 98, 121, 101]
      rfl (Or.inl rfl) (by decide)⟩

/-- C5 counterexample: `getText` on an Integer cell (a cell not of the
requested text type) yields the decimal text representation of the value,
not the text type's zero/default: on the Integer 42 cell it returns the
bytes of "42", which differ from the empty default. -/
theorem C5_counterexample :
    col0.getType = INTEGER ∧ INTEGER ≠ TEXT ∧
    col0.getText [] = [52, 50] ∧ col0.getText [] ≠ [] :=
  ⟨rfl, by decide, by decide, by decide⟩

/-- C5 (amended): every typed getter is total and never fails; the numeric
getters fall back to zero when the cell is not of the requested numeric
type; on a Null cell, `getText(defaultValue)` returns `defaultValue` and
`getInt()` returns 0; on any non-null cell, text extraction returns the
native representation's bytes rather than the default. -/
theorem C5_getters_total_with_defaults (c cI cF cT : Column) (d : List Nat)
    (hc : c.cell = Cell.null)
    (hI : cI.getType ≠ INTEGER)
    (hF : cF.getType ≠ FLOAT)
    (hT : cT.cell ≠ Cell.null) :
    c.getInt = 0 ∧ c.getUInt = 0 ∧ c.getInt64 = 0 ∧ c.getDouble = 0 ∧
    c.getText d = d ∧
    cI.getInt = 0 ∧ cI.getUInt = 0 ∧ cI.getInt64 = 0 ∧
    cF.getDouble = 0 ∧
    cT.getText d = cT.cell.bytesRep := by
  have hzero32 : wrapS 32 0 = 0 := by decide
  have hzeroU : wrapU 32 0 = 0 := by decide
  have hcI : cI.cell.toInt64 = 0 := by
    refine Cell.toInt64_of_ne_integer cI.cell (fun v hv => hI ?_)
    unfold Column.getType
    rw [hv]
  have hcF : cF.cell.toDouble = 0 := by
    cases hcell : cF.cell with
    | float v =>
        exfalso
        apply hF
        unfold Column.getType
        rw [hcell]
    | integer v => rfl
    | text b => rfl
    | blob b => rfl
    | null => rfl
  refine ⟨?_, ?_, ?_, ?_, ?_, ?_, ?_, ?_, ?_, ?_⟩
  · unfold Column.getInt; rw [hc]; exact hzero32
  · unfold Column.getUInt; rw [hc]; exact hzeroU
  · unfold Column.getInt64; rw [hc]; rfl
  · unfold Column.getDouble; rw [hc]; rfl
  · unfold Column.getText; rw [hc]
  · unfold Column.getInt; rw [hcI]; exact hzero32
  · unfold Column.getUInt; rw [hcI]; exact hzeroU
  · exact hcI
  · exact hcF
  · unfold Column.getText
    cases hcell : cT.cell with
    | null => exact absurd hcell hT
    | integer v => rfl
    | float v => rfl
    | text b => rfl
    | blob b => rfl

/-- Witness for C5 (amended): the Null cell (column 2), the Text cell
(column 1, not Integer), and the Integer cell (column 0, not Float and
not Null) of the fixture row. -/
theorem C5_witness :
    col2.cell = Cell.null ∧ col1.getType ≠ INTEGER ∧
    col0.getType ≠ FLOAT ∧ col0.cell ≠ Cell.null ∧
    (col2.getInt = 0 ∧ col2.getUInt = 0 ∧ col2.getInt64 = 0 ∧
     col2.getDouble = 0 ∧ col2.getText [] = [] ∧
     col1.getInt = 0 ∧ col1.getUInt = 0 ∧ col1.getInt64 = 0 ∧
     col0.getDouble = 0 ∧
     col0.getText [] = col0.cell.bytesRep) :=
  ⟨rfl, by decide, by decide, by decide,
    C5_getters_total_with_defaults col2 col1 col0 col0 []
      rfl (by decide) (by decide) (by decide)⟩

/-- C6: the conversion of a Column to the native `long` type is decided by
the platform constants alone (the preprocessor condition
`LONG_MAX == INT_MAX`), not by the column: on a platform where `long` is
32 bits it is `getInt()`, and on an LP64 platform it is `getInt64()`. -/
theorem C6_operator_long_platform_resolved (pf : Platform) (c : Column) :
    Column.operatorLong pf c =
      (if pf.longMax = pf.intMax then c.getInt else c.getInt64) ∧
    Column.operatorLong ilp32 c = c.getInt ∧
    Column.operatorLong lp64 c = c.getInt64 := by
  refine ⟨rfl, ?_, ?_⟩
  · simp [Column.operatorLong, ilp32]
  · have hne : lp64.longMax ≠ lp64.intMax := by decide
    simp [Column.operatorLong, hne]

/-- C7: `getType()` lands in the closed five-element tag set, and each
classification predicate is exactly the comparison of `getType()` with the
corresponding tag constant, recomputed from the cell on every call. -/
theorem C7_type_tag_closed_set_and_predicates (c : Column) :
    (c.getType = INTEGER ∨ c.getType = FLOAT ∨ c.getType = TEXT ∨
      c.getType = BLOB ∨ c.getType = Null) ∧
    (c.isInteger = true ↔ c.getType = INTEGER) ∧
    (c.isFloat = true ↔ c.getType = FLOAT) ∧
    (c.isText = true ↔ c.getType = TEXT) ∧
    (c.isBlob = true ↔ c.getType = BLOB) ∧
    (c.isNull = true ↔ c.getType = Null) := by
  constructor
  · unfold Column.getType
    cases c.cell <;> simp [INTEGER, FLOAT, TEXT, BLOB, Null]
  · refine ⟨?_, ?_, ?_, ?_, ?_⟩ <;>
      · simp only [Column.isInteger, Column.isFloat, Column.isText,
          Column.isBlob, Column.isNull, beq_iff_eq]
        exact eq_comm

/-- C8: copying a Column copies the shared statement pointer and increments
the reference count by one; along every well-formed trace of copies and
drops the native resource is finalized exactly once, at the drop of the
last owning reference, and never while a reference remains. -/
theorem C8_shared_ptr_finalizes_exactly_once (ops : List PtrOp) (n : Nat)
    (h1 : 1 ≤ n) (hv : ValidTrace ⟨n, 0⟩ ops) :
    (((ptrRun ⟨n, 0⟩ ops).finalizedCount = 0 ∧ 1 ≤ (ptrRun ⟨n, 0⟩ ops).count) ∨
      ((ptrRun ⟨n, 0⟩ ops).finalizedCount = 1 ∧ (ptrRun ⟨n, 0⟩ ops).count = 0)) ∧
    (ptrStep (ptrRun ⟨n, 0⟩ ops) PtrOp.copy).count = (ptrRun ⟨n, 0⟩ ops).count + 1 :=
  ⟨ptrRun_inv ops ⟨n, 0⟩ hv (Or.inl ⟨rfl, h1⟩), rfl⟩

/-- Witness for C8: one initial owner, a Column copy, then both holders
dropped; the resource ends finalized exactly once with no references. -/
theorem C8_witness :
    1 ≤ 1 ∧ ValidTrace ⟨1, 0⟩ [PtrOp.copy, PtrOp.drop, PtrOp.drop] ∧
    ((((ptrRun ⟨1, 0⟩ [PtrOp.copy, PtrOp.drop, PtrOp.drop]).finalizedCount = 0 ∧
        1 ≤ (ptrRun ⟨1, 0⟩ [PtrOp.copy, PtrOp.drop, PtrOp.drop]).count) ∨
      ((ptrRun ⟨1, 0⟩ [PtrOp.copy, PtrOp.drop, PtrOp.drop]).finalizedCount = 1 ∧
        (ptrRun ⟨1, 0⟩ [PtrOp.copy, PtrOp.drop, PtrOp.drop]).count = 0)) ∧
     (ptrStep (ptrRun ⟨1, 0⟩ [PtrOp.copy, PtrOp.drop, PtrOp.drop]) PtrOp.copy).count =
       (ptrRun ⟨1, 0⟩ [PtrOp.copy, PtrOp.drop, PtrOp.drop]).count + 1) :=
  ⟨by decide, by simp [ValidTrace, ptrStep],
    C8_shared_ptr_finalizes_exactly_once [PtrOp.copy, PtrOp.drop, PtrOp.drop] 1
      (by decide) (by simp [ValidTrace, ptrStep])⟩

/-- C9: `size()` returns exactly `getBytes()` on every column. -/
theorem C9_size_is_getBytes (c : Column) : c.size = c.getBytes :=
  rfl

/-- C10: the narrow cast operators are `static_cast` of `getInt()`:
each result is congruent to `getInt()` modulo `2^8` or `2^16`, the signed
ones landing in the signed range and the unsigned ones being the plain
residue, with no range check. -/
theorem C10_narrow_casts_truncate_getInt (c : Column) :
    (c.operatorChar % 2 ^ 8 = c.getInt % 2 ^ 8 ∧
      -(2 ^ 7) ≤ c.operatorChar ∧ c.operatorChar < 2 ^ 7) ∧
    c.operatorUChar = c.getInt % 2 ^ 8 ∧
    (c.operatorShort % 2 ^ 16 = c.getInt % 2 ^ 16 ∧
      -(2 ^ 15) ≤ c.operatorShort ∧ c.operatorShort < 2 ^ 15) ∧
    c.operatorUShort = c.getInt % 2 ^ 16 :=
  ⟨⟨wrapS_emod 8 c.getInt, (wrapS_range 7 c.getInt).1, (wrapS_range 7 c.getInt).2⟩,
    rfl,
    ⟨wrapS_emod 16 c.getInt, (wrapS_range 15 c.getInt).1, (wrapS_range 15 c.getInt).2⟩,
    rfl⟩

end Claims

end SQLiteCpp
